import Mathlib

/-!
Verification development for the optimization subsystem of the
vsf-infrastructure repository: a shallow embedding of the probe router
(`src/optimization/router.py`), the metrics aggregator
(`src/optimization/aggregator.py`) and the optimization controller
(`src/optimization/controller.py`), followed by theorems settling the
behavioural claims about these components.

Modelling conventions:
- Python timestamps (`datetime.now()`) are modelled as integer time points
  that are supplied to each operation as an explicit parameter; elapsed
  wall-clock durations (the `duration_ms` fields) are not modelled.
- Python dicts with string keys and heterogeneous values are modelled as
  association lists of `PValue`s; `dict.get` is first-occurrence lookup,
  which matches Python's unique-key dicts.
- Network I/O is modelled by explicit environments: the outcome of each
  HTTP attempt inside `call_tool` is given by a function from the attempt
  index to an `AttemptOutcome`, and the call results consumed by the
  controller's action execution are given by a function from the issued
  request to an `MCPCallResult`.
-/

namespace VSF

/-- A Python value stored in a parameter / condition / result dict. -/
inductive PValue where
  | pnone
  | pbool (b : Bool)
  | pint (n : Int)
  | prat (q : ℚ)
  | pstr (s : String)
deriving DecidableEq

/-- A Python string-keyed dict, as an association list (first key wins,
matching unique-key dict semantics). -/
abbrev Params := List (String × PValue)

/-- `d.get(k, default)` on a Python dict. -/
def pget (ps : Params) (k : String) (d : PValue) : PValue :=
  (ps.lookup k).getD d

/-- `k in d` on a Python dict. -/
def phasKey (ps : Params) (k : String) : Bool :=
  (ps.lookup k).isSome

/-- Numeric coercion used where the Python code applies `>` / `<` between
a stored condition value and an int.  On the ints actually stored by the
controller this is the identity; Python `bool` is an `int` subtype. -/
def PValue.toInt : PValue → Int
  | .pint n => n
  | .pbool b => if b then 1 else 0
  | _ => 0

/-- Numeric coercion for float-valued thresholds (`cpu_threshold`). -/
def PValue.toRat : PValue → ℚ
  | .pint n => (n : ℚ)
  | .prat q => q
  | .pbool b => if b then 1 else 0
  | _ => 0

/-- Python truthiness, used where a stored value lands in a `bool` field. -/
def PValue.toBool : PValue → Bool
  | .pnone => false
  | .pbool b => b
  | .pint n => decide (n ≠ 0)
  | .prat q => decide (q ≠ 0)
  | .pstr s => decide (s ≠ "")

/-! ## Router (`src/optimization/router.py`) -/

/-- `ProbeType`: types of probes in the VSF. -/
inductive ProbeType where
  | k8s
  | vm_system
  | host_system
deriving DecidableEq

/-- `ProbeInfo`: information about a registered probe. -/
structure ProbeInfo where
  probe_id : String
  probe_type : ProbeType
  endpoint : String
  hostname : String
  healthy : Bool := true
  last_heartbeat : Int
  metadata : Params := []
deriving DecidableEq

/-- `ProbeInfo.is_stale`: probe hasn't sent a heartbeat within
`timeout_seconds` (default 300) of `now`. -/
def ProbeInfo.is_stale (p : ProbeInfo) (now : Int) (timeout_seconds : Int := 300) : Bool :=
  decide (now - p.last_heartbeat > timeout_seconds)

/-- `MCPCallResult`: result of an MCP tool call (wall-clock `duration_ms`
is not modelled). -/
structure MCPCallResult where
  success : Bool
  probe_id : String
  tool_name : String
  result : Option Params := none
  error : Option String := none
deriving DecidableEq

/-- Mutable state of a `ProbeRouter`: the probe registry (a unique-key
dict, as a list), the alias routing table, and the retry budget. -/
structure RouterState where
  probes : List ProbeInfo := []
  routing_table : List (String × String) := []
  max_retries : Nat := 3
deriving DecidableEq

/-- `ProbeRouter.register_probe`: insert (or overwrite) a probe record and
install the hostname alias. -/
def register_probe (s : RouterState) (pid : String) (pt : ProbeType)
    (endpoint hostname : String) (now : Int) (metadata : Params := []) : RouterState :=
  let p : ProbeInfo :=
    { probe_id := pid, probe_type := pt, endpoint := endpoint, hostname := hostname
      healthy := true, last_heartbeat := now, metadata := metadata }
  { s with
    probes :=
      if s.probes.any (fun q => q.probe_id = pid) then
        s.probes.map (fun q => if q.probe_id = pid then p else q)
      else s.probes ++ [p]
    routing_table :=
      if s.routing_table.any (fun kv => kv.1 = hostname) then
        s.routing_table.map (fun kv => if kv.1 = hostname then (hostname, pid) else kv)
      else s.routing_table ++ [(hostname, pid)] }

/-- `ProbeRouter.get_probe`: resolve a target by probe id first, then by
routing-table alias. -/
def get_probe (s : RouterState) (target : String) : Option ProbeInfo :=
  match s.probes.find? (fun p => p.probe_id = target) with
  | some p => some p
  | none =>
    match s.routing_table.lookup target with
    | some pid => s.probes.find? (fun p => p.probe_id = pid)
    | none => none

/-- `ProbeRouter.list_probes`: optional probe-type filter, then the
healthy-only filter, which keeps probes that are healthy AND not stale
(staleness window: the `is_stale` default of 300 s). -/
def list_probes (s : RouterState) (now : Int)
    (probe_type : Option ProbeType := none) (healthy_only : Bool := false) :
    List ProbeInfo :=
  let probes := s.probes
  let probes :=
    match probe_type with
    | some pt => probes.filter (fun p => p.probe_type = pt)
    | none => probes
  if healthy_only then
    probes.filter (fun p => p.healthy && !(p.is_stale now))
  else probes

/-- `ProbeRouter.update_health`: set the probe's health flag and refresh
its last-heartbeat timestamp. -/
def update_health (s : RouterState) (pid : String) (healthy : Bool) (now : Int) :
    RouterState :=
  if s.probes.any (fun p => p.probe_id = pid) then
    { s with probes := s.probes.map (fun p =>
        if p.probe_id = pid then { p with healthy := healthy, last_heartbeat := now } else p) }
  else s

/-- Outcome of one HTTP attempt inside `call_tool`, supplied by the
environment: a 200 response whose body has no error field (`ok`), a 200
response whose body carries an explicit error field (`mcpError`, with the
extracted message), a non-200 HTTP status (`badStatus`), or a transport
exception (`exn`). -/
inductive AttemptOutcome where
  | ok (result : Params)
  | mcpError (msg : String)
  | badStatus (code : Nat)
  | exn (msg : String)
deriving DecidableEq

/-- An attempt outcome that falls through to the next loop iteration
(non-200 status or transport exception), as opposed to the two outcomes
that return from the loop at once. -/
def AttemptOutcome.retriable : AttemptOutcome → Bool
  | .badStatus _ => true
  | .exn _ => true
  | _ => false

/-- Result of the retry loop inside `call_tool`: the call result, the
health update applied on exit (if any), the number of HTTP attempts made,
and the list of back-off sleeps (in seconds) performed. -/
structure LoopOut where
  result : MCPCallResult
  healthUpd : Option Bool
  consumed : Nat
  sleeps : List ℚ
deriving DecidableEq

/-- The `for attempt in range(max_retries)` retry loop of
`ProbeRouter.call_tool`, recursing on the remaining attempt budget with
`attempt` the current 0-based attempt index:
- 200 with a result body: mark healthy, return success;
- 200 with an explicit error field: return a failure result immediately
  (no retry, no health update);
- non-200 status: log and fall through to the next attempt (no sleep);
- transport exception: sleep `(attempt+1) * 1.0` seconds if this is not
  the last attempt, then fall through;
- budget exhausted: mark unhealthy, return the all-attempts-failed result. -/
def callLoop (pid tool : String) (maxR : Nat) (env : Nat → AttemptOutcome) :
    Nat → Nat → LoopOut
  | 0, _ =>
    { result :=
        { success := false, probe_id := pid, tool_name := tool
          error := some ("All " ++ toString maxR ++ " attempts failed") }
      healthUpd := some false, consumed := 0, sleeps := [] }
  | remaining + 1, attempt =>
    match env attempt with
    | .ok res =>
      { result := { success := true, probe_id := pid, tool_name := tool, result := some res }
        healthUpd := some true, consumed := 1, sleeps := [] }
    | .mcpError msg =>
      { result := { success := false, probe_id := pid, tool_name := tool, error := some msg }
        healthUpd := none, consumed := 1, sleeps := [] }
    | .badStatus _ =>
      let o := callLoop pid tool maxR env remaining (attempt + 1)
      { o with consumed := o.consumed + 1 }
    | .exn _ =>
      let o := callLoop pid tool maxR env remaining (attempt + 1)
      let sl : List ℚ := if attempt + 1 < maxR then [(attempt : ℚ) + 1] else []
      { o with consumed := o.consumed + 1, sleeps := sl ++ o.sleeps }

/-- `ProbeRouter.call_tool`: resolve the target (failure, no attempt, if
unknown), fail fast if the probe is unhealthy (no attempt), otherwise run
the retry loop and apply its health update.  Returns the call result, the
new router state, the number of HTTP attempts made, and the sleeps
performed. -/
def call_tool (s : RouterState) (now : Int) (target tool : String)
    (env : Nat → AttemptOutcome) :
    MCPCallResult × RouterState × Nat × List ℚ :=
  match get_probe s target with
  | none =>
    ({ success := false, probe_id := target, tool_name := tool
       error := some ("No probe found for target: " ++ target) }, s, 0, [])
  | some probe =>
    if probe.healthy then
      let o := callLoop probe.probe_id tool s.max_retries env s.max_retries 0
      let s' :=
        match o.healthUpd with
        | some b => update_health s probe.probe_id b now
        | none => s
      (o.result, s', o.consumed, o.sleeps)
    else
      ({ success := false, probe_id := probe.probe_id, tool_name := tool
         error := some ("Probe " ++ probe.probe_id ++ " is unhealthy") }, s, 0, [])

/-- A sequence of `call_tool` invocations against one fixed target, each
with its own time, tool and attempt environment; returns the per-call
(result, attempts-made) pairs and the final router state. -/
def call_tool_seq (s : RouterState) (target : String) :
    List (Int × String × (Nat → AttemptOutcome)) →
    List (MCPCallResult × Nat) × RouterState
  | [] => ([], s)
  | (now, tool, env) :: rest =>
    let r := call_tool s now target tool env
    let rs := call_tool_seq r.2.1 target rest
    ((r.1, r.2.2.1) :: rs.1, rs.2)

/-! ## Aggregator (`src/optimization/aggregator.py`) -/

/-- `NodeMetrics`: metrics from a single node/probe. -/
structure NodeMetrics where
  probe_id : String
  hostname : String
  probe_type : String
  timestamp : Int
  cpu_percent : ℚ := 0
  memory_percent : ℚ := 0
  power_watts : Option ℚ := none
  additional : Params := []
  error : Option String := none
deriving DecidableEq

/-- `ClusterMetrics`: aggregated metrics from the K8s cluster probe. -/
structure ClusterMetrics where
  timestamp : Int
  total_nodes : Int := 0
  ready_nodes : Int := 0
  schedulable_nodes : Int := 0
  total_pods : Int := 0
  running_pods : Int := 0
  pending_pods : Int := 0
  cpu_utilization : ℚ := 0
  memory_utilization : ℚ := 0
  gpu_nodes : Int := 0
  gpu_pods : Int := 0
deriving DecidableEq

/-- `AggregatedMetrics`: complete aggregated view of all metrics. -/
structure AggregatedMetrics where
  timestamp : Int
  cluster : Option ClusterMetrics := none
  nodes : List NodeMetrics := []
  total_probes : Nat := 0
  healthy_probes : Nat := 0
  avg_cpu_percent : ℚ := 0
  avg_memory_percent : ℚ := 0
  total_power_watts : Option ℚ := none
deriving DecidableEq

/-- `AggregatedMetrics.compute_aggregates`: fill the derived aggregate
fields from the raw node list (a no-op when the node list is empty). -/
def compute_aggregates (m : AggregatedMetrics) : AggregatedMetrics :=
  if m.nodes = [] then m
  else
    let total_probes := m.nodes.length + (if m.cluster.isSome then 1 else 0)
    let healthy_probes := (m.nodes.filter (fun n => n.error = none)).length
    let valid_nodes := m.nodes.filter (fun n => n.error = none)
    let m := { m with total_probes := total_probes, healthy_probes := healthy_probes }
    if valid_nodes ≠ [] then
      let m :=
        { m with
          avg_cpu_percent := (valid_nodes.map (fun n => n.cpu_percent)).sum / valid_nodes.length
          avg_memory_percent := (valid_nodes.map (fun n => n.memory_percent)).sum / valid_nodes.length }
      let power_nodes := valid_nodes.filter (fun n => n.power_watts ≠ none)
      if power_nodes ≠ [] then
        { m with total_power_watts := some (power_nodes.filterMap (fun n => n.power_watts)).sum }
      else m
    else m

/-- What one full fan-out collection would gather at a given time: the
optional cluster metrics from `collect_cluster_metrics` and the per-node
metrics list from `collect_node_metrics`.  Abstracts the network
round-trips that produce the raw data. -/
abbrev CollectEnv := Int → Option ClusterMetrics × List NodeMetrics

/-- Mutable state of a `MetricsAggregator`: the TTL and the single cached
snapshot slot.  The Python `_cache` / `_cache_time` fields are always set
together, so they are modelled as one optional pair. -/
structure AggState where
  cache_ttl : Int := 30
  cache : Option (AggregatedMetrics × Int) := none
deriving DecidableEq

/-- `MetricsAggregator._cache_valid`: a cached snapshot exists and is
younger than the TTL. -/
def cache_valid (s : AggState) (now : Int) : Bool :=
  match s.cache with
  | none => false
  | some (_, t) => decide (now - t < s.cache_ttl)

/-- The fresh-build path of `collect_all`: fan out (via the collection
environment), build the snapshot, compute its aggregates, and replace the
cache slot wholesale. -/
def buildSnapshot (env : CollectEnv) (now : Int) (s : AggState) :
    AggregatedMetrics × AggState :=
  let (cluster, nodes) := env now
  let m := compute_aggregates { timestamp := now, cluster := cluster, nodes := nodes }
  (m, { s with cache := some (m, now) })

/-- `MetricsAggregator.collect_all`: return the cached snapshot unchanged
when the cache is valid and no refresh is forced; otherwise build a fresh
snapshot.  (When `cache_valid` holds the cache slot is necessarily
occupied; the `none` branch below is unreachable.) -/
def collect_all (env : CollectEnv) (now : Int) (force_refresh : Bool)
    (s : AggState) : AggregatedMetrics × AggState :=
  if force_refresh = false ∧ cache_valid s now then
    match s.cache with
    | some (m, _) => (m, s)
    | none => buildSnapshot env now s
  else buildSnapshot env now s

/-- Python `round(x, 2)` (round half to even) on exact rationals.  The
floor of `y` is computed as the floor-division of its numerator by its
denominator. -/
def pyRound2 (x : ℚ) : ℚ :=
  let y := x * 100
  let f : Int := y.num.fdiv (y.den : Int)
  let r : ℚ := y - (f : ℚ)
  let n : Int :=
    if r < 1/2 then f
    else if 1/2 < r then f + 1
    else if f % 2 = 0 then f else f + 1
  (n : ℚ) / 100

/-- The cluster sub-dict of `get_summary`. -/
structure ClusterSummary where
  total_nodes : Int
  ready_nodes : Int
  total_pods : Int
  running_pods : Int
deriving DecidableEq

/-- The dict returned by `MetricsAggregator.get_summary`. -/
structure Summary where
  timestamp : Int
  total_probes : Nat
  healthy_probes : Nat
  avg_cpu_percent : ℚ
  avg_memory_percent : ℚ
  total_power_watts : Option ℚ := none
  cluster : Option ClusterSummary := none
deriving DecidableEq

/-- The summary dict `get_summary` builds from a snapshot. -/
def summarize (m : AggregatedMetrics) : Summary :=
  { timestamp := m.timestamp
    total_probes := m.total_probes
    healthy_probes := m.healthy_probes
    avg_cpu_percent := pyRound2 m.avg_cpu_percent
    avg_memory_percent := pyRound2 m.avg_memory_percent
    total_power_watts := m.total_power_watts.map pyRound2
    cluster := m.cluster.map (fun c =>
      { total_nodes := c.total_nodes, ready_nodes := c.ready_nodes
        total_pods := c.total_pods, running_pods := c.running_pods }) }

/-- `MetricsAggregator.get_summary`: summarise `collect_all()` — note the
non-forced refresh, so within the TTL this summarises the cached
snapshot. -/
def get_summary (env : CollectEnv) (now : Int) (s : AggState) :
    Summary × AggState :=
  let (m, s') := collect_all env now false s
  (summarize m, s')

/-! ## Controller (`src/optimization/controller.py`) -/

/-- `PolicyType`: types of optimization policies. -/
inductive PolicyType where
  | consolidate
  | scale_down
  | power_save
  | performance
deriving DecidableEq

/-- `ActionType`: types of optimization actions. -/
inductive ActionType where
  | consolidate_workloads
  | drain_node
  | set_governor
  | set_power_cap
  | cordon_node
  | uncordon_node
deriving DecidableEq

/-- `Policy`: optimization policy definition. -/
structure Policy where
  name : String
  policy_type : PolicyType
  enabled : Bool := true
  priority : Int := 0
  conditions : Params := []
  parameters : Params := []
deriving DecidableEq

/-- `Action`: planned optimization action. -/
structure Action where
  action_type : ActionType
  target : String
  parameters : Params := []
  reason : String := ""
  policy : String := ""
  priority : Int := 0
  dry_run : Bool := false
deriving DecidableEq

/-- `ActionResult`: result of executing an action (wall-clock duration
and timestamp are not modelled). -/
structure ActionResult where
  action : Action
  success : Bool
  result : Params := []
  error : Option PValue := none
deriving DecidableEq

/-- `OptimizationController._evaluate_policy`: evaluate a single policy
against a snapshot.  The `scale_down` type has no branch in the source
and yields no actions.  (Numeric formatting inside the reason strings is
approximated by `toString`.) -/
def evaluate_policy (pol : Policy) (m : AggregatedMetrics) : List Action :=
  match pol.policy_type with
  | .consolidate =>
    match m.cluster with
    | none => []
    | some cl =>
      let active_nodes := cl.ready_nodes
      let target_nodes := pget pol.parameters "target_nodes" (.pint 5)
      let min_nodes := (pget pol.conditions "min_nodes" (.pint 10)).toInt
      if active_nodes > min_nodes then
        [{ action_type := .consolidate_workloads
           target := "cluster"
           parameters :=
             [("target_node_count", target_nodes),
              ("dry_run", pget pol.parameters "dry_run" (.pbool true))]
           reason := "Over-provisioned: " ++ toString active_nodes ++ " > "
             ++ toString min_nodes ++ " nodes"
           policy := pol.name
           priority := pol.priority
           dry_run := (pget pol.parameters "dry_run" (.pbool true)).toBool }]
      else []
  | .power_save =>
    let threshold := (pget pol.conditions "cpu_threshold" (.prat 20)).toRat
    (m.nodes.filter (fun n => n.error = none ∧ n.cpu_percent < threshold)).map
      (fun n =>
        { action_type := .set_governor
          target := n.probe_id
          parameters := [("governor", .pstr "powersave")]
          reason := "Low CPU usage: " ++ toString n.cpu_percent ++ "%"
          policy := pol.name
          priority := pol.priority
          dry_run := (pget pol.parameters "dry_run" (.pbool true)).toBool })
  | .performance =>
    let threshold := (pget pol.conditions "cpu_threshold" (.prat 80)).toRat
    (m.nodes.filter (fun n => n.error = none ∧ n.cpu_percent > threshold)).map
      (fun n =>
        { action_type := .set_governor
          target := n.probe_id
          parameters := [("governor", .pstr "performance")]
          reason := "High CPU usage: " ++ toString n.cpu_percent ++ "%"
          policy := pol.name
          priority := pol.priority
          dry_run := (pget pol.parameters "dry_run" (.pbool true)).toBool })
  | .scale_down => []

/-- Insertion step of a stable descending sort on `Action.priority`:
place `a` before the first element whose priority is ≤ `a`'s. -/
def insertByPriorityDesc (a : Action) : List Action → List Action
  | [] => [a]
  | b :: bs =>
    if b.priority ≤ a.priority then a :: b :: bs
    else b :: insertByPriorityDesc a bs

/-- Stable descending sort on `Action.priority`, modelling Python's
stable `list.sort(key=lambda a: a.priority, reverse=True)`. -/
def sortByPriorityDesc : List Action → List Action
  | [] => []
  | a :: rest => insertByPriorityDesc a (sortByPriorityDesc rest)

/-- `OptimizationController.evaluate_policies`: visit the stored policy
list in order, skip disabled policies, collect each enabled policy's
actions, then re-sort the combined list descending by priority. -/
def evaluate_policies (policies : List Policy) (m : AggregatedMetrics) :
    List Action :=
  let actions := policies.foldl
    (fun acc pol => if pol.enabled then acc ++ evaluate_policy pol m else acc) []
  sortByPriorityDesc actions

/-- The cycle-level dry-run override in `run_optimization_cycle`:
`action.dry_run = True`, every other field untouched. -/
def overrideDryRun (a : Action) : Action :=
  { a with dry_run := true }

/-- `list_probes(probe_type=ProbeType.K8S)` followed by `[0]`: the first
registered K8s probe, if any. -/
def findK8s (s : RouterState) : Option ProbeInfo :=
  (s.probes.filter (fun p => p.probe_type = ProbeType.k8s)).head?

/-- How the `_execute_*` helpers convert a router call result into the
result dict: the payload (`call_result.result or {}`) on success, else
`{"error": call_result.error}`. -/
def outcomeToDict (o : MCPCallResult) : Params :=
  if o.success then o.result.getD []
  else [("error", match o.error with | some s => .pstr s | none => .pnone)]

/-- A network request issued by an `_execute_*` helper. -/
structure ToolRequest where
  target : String
  tool_name : String
  arguments : Params
deriving DecidableEq

/-- Outcome environment for action execution: the `MCPCallResult` the
router returns for a given request. -/
abbrev CallEnv := ToolRequest → MCPCallResult

/-- `OptimizationController._execute_consolidate`: delegate to the first
K8s probe's `consolidate_workloads` tool, passing the action's parameter
dict through unchanged (dry-run flag and all). -/
def execute_consolidate (rs : RouterState) (env : CallEnv) (a : Action) : Params :=
  match findK8s rs with
  | none => [("error", .pstr "No K8s probe available")]
  | some p => outcomeToDict (env ⟨p.probe_id, "consolidate_workloads", a.parameters⟩)

/-- `OptimizationController._execute_set_governor`: call the target
probe's `set_cpu_governor` tool with the action's parameters (the router
state is not consulted on this path). -/
def execute_set_governor (_rs : RouterState) (env : CallEnv) (a : Action) : Params :=
  outcomeToDict (env ⟨a.target, "set_cpu_governor", a.parameters⟩)

/-- `{"node_name": action.target, **action.parameters}`: Python dict
construction with spread, later keys overriding. -/
def drainArgs (a : Action) : Params :=
  ("node_name", pget a.parameters "node_name" (.pstr a.target))
    :: a.parameters.filter (fun kv => kv.1 ≠ "node_name")

/-- `OptimizationController._execute_drain_node`: delegate `drain_node`
to the first K8s probe. -/
def execute_drain_node (rs : RouterState) (env : CallEnv) (a : Action) : Params :=
  match findK8s rs with
  | none => [("error", .pstr "No K8s probe available")]
  | some p => outcomeToDict (env ⟨p.probe_id, "drain_node", drainArgs a⟩)

/-- `OptimizationController._execute_schedulable`: delegate cordon /
uncordon to the first K8s probe's `set_node_schedulable` tool. -/
def execute_schedulable (rs : RouterState) (env : CallEnv) (a : Action) : Params :=
  match findK8s rs with
  | none => [("error", .pstr "No K8s probe available")]
  | some p =>
    outcomeToDict (env ⟨p.probe_id, "set_node_schedulable",
      [("node_name", .pstr a.target),
       ("schedulable", .pbool (a.action_type = ActionType.uncordon_node))]⟩)

/-- `OptimizationController.execute_action`: dispatch on the action type
(the dry-run flag is only logged, never consulted); success is the
absence of an `"error"` key in the result dict. -/
def execute_action (rs : RouterState) (env : CallEnv) (a : Action) : ActionResult :=
  let result : Params :=
    match a.action_type with
    | .consolidate_workloads => execute_consolidate rs env a
    | .set_governor => execute_set_governor rs env a
    | .drain_node => execute_drain_node rs env a
    | .cordon_node => execute_schedulable rs env a
    | .uncordon_node => execute_schedulable rs env a
    | .set_power_cap => [("error", .pstr "Unknown action type: ActionType.SET_POWER_CAP")]
  let success := !(phasKey result "error")
  { action := a, success := success, result := result
    error := if success then none else result.lookup "error" }

/-- `OptimizationCycle`: record of a complete optimization cycle
(`metrics_before` / `metrics_after` are `none` until set). -/
structure OptimizationCycle where
  cycle_id : String
  start_time : Int
  end_time : Option Int := none
  metrics_before : Option Summary := none
  metrics_after : Option Summary := none
  policies_evaluated : List String := []
  actions_planned : List Action := []
  actions_executed : List ActionResult := []
  success : Bool := false
  error : Option String := none
deriving DecidableEq

/-- `OptimizationController.run_optimization_cycle`: force-refresh the
snapshot at time `t0` and summarise it as `metrics_before`; evaluate the
enabled policies; apply the cycle-level dry-run override; execute every
planned action in list order; after the fixed pause, take `metrics_after`
from a *non-forced* `get_summary` at time `t_after`; cycle success is the
conjunction of the per-action successes.  (The catastrophic-fault
`except` path never fires in this total model.) -/
def run_optimization_cycle (rs : RouterState) (aggS : AggState)
    (collectEnv : CollectEnv) (callEnv : CallEnv) (policies : List Policy)
    (cycle_id : String) (t0 t_after : Int) (dry_run : Bool) :
    OptimizationCycle × AggState :=
  let (metrics, aggS) := collect_all collectEnv t0 true aggS
  let (before, aggS) := get_summary collectEnv t0 aggS
  let evaluated := (policies.filter (fun p => p.enabled)).map (fun p => p.name)
  let actions := evaluate_policies policies metrics
  let actions := if dry_run then actions.map overrideDryRun else actions
  let executed := actions.map (execute_action rs callEnv)
  let (after, aggS) := get_summary collectEnv t_after aggS
  ({ cycle_id := cycle_id
     start_time := t0
     end_time := some t_after
     metrics_before := some before
     metrics_after := some after
     policies_evaluated := evaluated
     actions_planned := actions
     actions_executed := executed
     success := executed.all (fun r => r.success) }, aggS)

/-! ## Concrete instances used by the counterexamples and witnesses -/

/-- A single healthy VM probe. -/
def p1 : ProbeInfo :=
  { probe_id := "probe1", probe_type := .vm_system, endpoint := "http://e"
    hostname := "host1", healthy := true, last_heartbeat := 0 }

/-- A router holding `p1` with its hostname alias and the default retry
budget of 3. -/
def r1 : RouterState :=
  { probes := [p1], routing_table := [("host1", "probe1")] }

/-- Attempt environment: the first attempt yields a 200 response with an
explicit error field; any retry would succeed. -/
def env1 : Nat → AttemptOutcome :=
  fun i => if i = 0 then .mcpError "tool failed" else .ok []

/-- Attempt environment: the first attempt yields a non-200 status; the
second succeeds. -/
def env5 : Nat → AttemptOutcome :=
  fun i => if i = 0 then .badStatus 500 else .ok []

/-- Attempt environment: every attempt fails with a non-200 status. -/
def env4 : Nat → AttemptOutcome := fun _ => .badStatus 500

/-- A probe whose health flag is true but whose last heartbeat is far in
the past. -/
def pstale : ProbeInfo :=
  { probe_id := "probe2", probe_type := .vm_system, endpoint := "http://e"
    hostname := "host2", healthy := true, last_heartbeat := 0 }

/-- A router holding only the stale-but-healthy probe `pstale`. -/
def s6 : RouterState :=
  { probes := [pstale], routing_table := [("host2", "probe2")] }

/-- Collection environment: no cluster probe, no node probes. -/
def emptyCollectEnv : CollectEnv := fun _ => (none, [])

/-- Call environment returning a bare failure for every request. -/
def dummyCallEnv : CallEnv :=
  fun _ => { success := false, probe_id := "", tool_name := "" }

/-- A dry-run cycle with no policies, started at time 0 with the
post-action summary taken at time 2 (well inside the 30 s TTL). -/
def c3cyc : OptimizationCycle :=
  (run_optimization_cycle {} {} emptyCollectEnv dummyCallEnv [] "cyc" 0 2 true).1

/-- A snapshot whose cluster metrics report 21 ready nodes. -/
def m9 : AggregatedMetrics :=
  { timestamp := 0, cluster := some { timestamp := 0, ready_nodes := 21 } }

/-- An enabled consolidate policy with `min_nodes=10`, `target_nodes=5`. -/
def pol9 : Policy :=
  { name := "consolidation", policy_type := .consolidate, priority := 10
    conditions := [("min_nodes", .pint 10)], parameters := [("target_nodes", .pint 5)] }

/-- The one action `pol9` plans on `m9`. -/
def a9 : Action :=
  { action_type := .consolidate_workloads
    target := "cluster"
    parameters := [("target_node_count", .pint 5), ("dry_run", .pbool true)]
    reason := "Over-provisioned: 21 > 10 nodes"
    policy := "consolidation"
    priority := 10
    dry_run := true }

/-- `pol9` with the condition raised to `min_nodes=30`. -/
def pol9b : Policy := { pol9 with conditions := [("min_nodes", .pint 30)] }

/-- `pol9` with the condition set exactly at the ready-node count. -/
def pol9c : Policy := { pol9 with conditions := [("min_nodes", .pint 21)] }

/-! ## Helper lemmas -/

theorem call_tool_unhealthy (s : RouterState) (now : Int) (target tool : String)
    (env : Nat → AttemptOutcome) (p : ProbeInfo)
    (hres : get_probe s target = some p) (hh : p.healthy = false) :
    call_tool s now target tool env =
      ({ success := false, probe_id := p.probe_id, tool_name := tool
         error := some ("Probe " ++ p.probe_id ++ " is unhealthy") }, s, 0, []) := by
  simp [call_tool, hres, hh]

theorem call_tool_seq_of_unhealthy (target : String)
    (calls : List (Int × String × (Nat → AttemptOutcome))) :
    ∀ st : RouterState, ∀ p : ProbeInfo, get_probe st target = some p → p.healthy = false →
      (∀ x ∈ (call_tool_seq st target calls).1, x.1.success = false ∧ x.2 = 0) ∧
      (call_tool_seq st target calls).2 = st := by
  induction calls with
  | nil =>
    intro st p _ _
    refine ⟨?_, rfl⟩
    intro x hx
    simp [call_tool_seq] at hx
  | cons c rest ih =>
    intro st p hres hh
    obtain ⟨now, tool, env⟩ := c
    have hcall := call_tool_unhealthy st now target tool env p hres hh
    have hrest := ih st p hres hh
    constructor
    · intro x hx
      simp only [call_tool_seq, hcall] at hx
      rcases List.mem_cons.mp hx with h | h
      · subst h; exact ⟨rfl, rfl⟩
      · exact hrest.1 x h
    · simp only [call_tool_seq, hcall]
      exact hrest.2

theorem callLoop_all_fail (pid tool : String) (maxR : Nat) (env : Nat → AttemptOutcome) :
    ∀ remaining attempt : Nat,
      (∀ i, attempt ≤ i → i < attempt + remaining → (env i).retriable = true) →
      (callLoop pid tool maxR env remaining attempt).result =
        { success := false, probe_id := pid, tool_name := tool
          error := some ("All " ++ toString maxR ++ " attempts failed") } ∧
      (callLoop pid tool maxR env remaining attempt).healthUpd = some false ∧
      (callLoop pid tool maxR env remaining attempt).consumed = remaining := by
  intro remaining
  induction remaining with
  | zero => intro attempt _; exact ⟨rfl, rfl, rfl⟩
  | succ r ih =>
    intro attempt hfail
    have hattempt : (env attempt).retriable = true :=
      hfail attempt (Nat.le_refl attempt) (by omega)
    have hnext : ∀ i, attempt + 1 ≤ i → i < attempt + 1 + r → (env i).retriable = true := by
      intro i h1 h2
      exact hfail i (by omega) (by omega)
    have ihs := ih (attempt + 1) hnext
    cases henv : env attempt with
    | ok res => rw [henv] at hattempt; simp [AttemptOutcome.retriable] at hattempt
    | mcpError msg => rw [henv] at hattempt; simp [AttemptOutcome.retriable] at hattempt
    | badStatus code =>
      refine ⟨?_, ?_, ?_⟩ <;> simp [callLoop, henv, ihs.1, ihs.2.1, ihs.2.2]
    | exn msg =>
      refine ⟨?_, ?_, ?_⟩ <;> simp [callLoop, henv, ihs.1, ihs.2.1, ihs.2.2]

theorem callLoop_sleeps (pid tool : String) (maxR : Nat) (env : Nat → AttemptOutcome) :
    ∀ remaining attempt : Nat,
      (callLoop pid tool maxR env remaining attempt).sleeps =
        (List.range' attempt (callLoop pid tool maxR env remaining attempt).consumed).filterMap
          (fun i =>
            match env i with
            | .exn _ => if i + 1 < maxR then some ((i : ℚ) + 1) else none
            | _ => none) := by
  intro remaining
  induction remaining with
  | zero => intro attempt; rfl
  | succ r ih =>
    intro attempt
    cases henv : env attempt with
    | ok res => simp [callLoop, henv]
    | mcpError msg => simp [callLoop, henv]
    | badStatus code =>
      simp only [callLoop, henv, List.range'_succ, List.filterMap_cons, henv, ih (attempt + 1)]
    | exn msg =>
      simp only [callLoop, henv, List.range'_succ, List.filterMap_cons, henv, ih (attempt + 1)]
      by_cases h : attempt + 1 < maxR <;> simp [h]

theorem get_probe_update_health (s : RouterState) (pid : String) (b : Bool) (now : Int)
    (target : String) :
    get_probe (update_health s pid b now) target =
      (get_probe s target).map (fun p =>
        if p.probe_id = pid then { p with healthy := b, last_heartbeat := now } else p) := by
  by_cases hmem : s.probes.any (fun p => p.probe_id = pid)
  · have hfind : ∀ x : String,
        (s.probes.map (fun p =>
          if p.probe_id = pid then { p with healthy := b, last_heartbeat := now } else p)).find?
            (fun p => p.probe_id = x) =
        (s.probes.find? (fun p => p.probe_id = x)).map (fun p =>
          if p.probe_id = pid then { p with healthy := b, last_heartbeat := now } else p) := by
      intro x
      rw [List.find?_map]
      have hpred : ((fun p : ProbeInfo => decide (p.probe_id = x)) ∘ (fun p =>
          if p.probe_id = pid then { p with healthy := b, last_heartbeat := now } else p)) =
          (fun p : ProbeInfo => decide (p.probe_id = x)) := by
        funext p
        by_cases hp : p.probe_id = pid <;> simp [Function.comp, hp]
      rw [hpred]
    simp only [update_health, hmem, if_true]
    simp only [get_probe, hfind]
    cases s.probes.find? (fun p => p.probe_id = target) with
    | some p => rfl
    | none =>
      simp only [Option.map_none]
      cases s.routing_table.lookup target with
      | some pid2 => simp [hfind]
      | none => rfl
  · have hupd : update_health s pid b now = s := by
      unfold update_health
      rw [if_neg hmem]
    rw [hupd]
    cases hg : get_probe s target with
    | none => simp
    | some p =>
      have hp : p ∈ s.probes := by
        simp only [get_probe] at hg
        rcases hf : s.probes.find? (fun q => q.probe_id = target) with _ | q
        · rw [hf] at hg
          rcases hl : s.routing_table.lookup target with _ | pid2 <;> rw [hl] at hg
          · exact absurd hg (by simp)
          · exact List.mem_of_find?_eq_some hg
        · rw [hf] at hg
          cases hg
          exact List.mem_of_find?_eq_some hf
      have hne : ¬ (p.probe_id = pid) := by
        intro he
        have := List.any_eq_true.not.mp hmem
        exact this ⟨p, hp, by simp [he]⟩
      simp [hne]

theorem mem_insertByPriorityDesc (a x : Action) (l : List Action) :
    x ∈ insertByPriorityDesc a l ↔ x = a ∨ x ∈ l := by
  induction l with
  | nil => simp [insertByPriorityDesc]
  | cons b bs ih =>
    by_cases h : b.priority ≤ a.priority
    · simp [insertByPriorityDesc, h]
    · simp only [insertByPriorityDesc, if_neg h, List.mem_cons, ih]
      tauto

theorem pairwise_insertByPriorityDesc (a : Action) (l : List Action)
    (hl : l.Pairwise (fun x y => y.priority ≤ x.priority)) :
    (insertByPriorityDesc a l).Pairwise (fun x y => y.priority ≤ x.priority) := by
  induction l with
  | nil => simp [insertByPriorityDesc]
  | cons b bs ih =>
    rcases List.pairwise_cons.mp hl with ⟨hb, hbs⟩
    by_cases h : b.priority ≤ a.priority
    · rw [insertByPriorityDesc, if_pos h]
      refine List.pairwise_cons.mpr ⟨?_, hl⟩
      intro y hy
      rcases List.mem_cons.mp hy with hy | hy
      · subst hy; exact h
      · exact le_trans (hb y hy) h
    · rw [insertByPriorityDesc, if_neg h]
      refine List.pairwise_cons.mpr ⟨?_, ih hbs⟩
      intro y hy
      rcases (mem_insertByPriorityDesc a y bs).mp hy with hy | hy
      · subst hy; omega
      · exact hb y hy

theorem sorted_sortByPriorityDesc (l : List Action) :
    (sortByPriorityDesc l).Pairwise (fun x y => y.priority ≤ x.priority) := by
  induction l with
  | nil => simp [sortByPriorityDesc]
  | cons a rest ih => exact pairwise_insertByPriorityDesc a _ ih

theorem filter_insertByPriorityDesc (a : Action) (l : List Action) (k : Int) :
    (insertByPriorityDesc a l).filter (fun x => x.priority = k) =
      if a.priority = k then a :: l.filter (fun x => x.priority = k)
      else l.filter (fun x => x.priority = k) := by
  induction l with
  | nil =>
    by_cases h : a.priority = k <;> simp [insertByPriorityDesc, List.filter, h]
  | cons b bs ih =>
    by_cases h : b.priority ≤ a.priority
    · rw [insertByPriorityDesc, if_pos h]
      by_cases ha : a.priority = k <;> simp [List.filter_cons, ha]
    · rw [insertByPriorityDesc, if_neg h]
      by_cases hb : b.priority = k
      · by_cases ha : a.priority = k
        · omega
        · simp [List.filter_cons, hb, ih, ha]
      · simp [List.filter_cons, hb, ih]

theorem filter_sortByPriorityDesc (l : List Action) (k : Int) :
    (sortByPriorityDesc l).filter (fun x => x.priority = k) =
      l.filter (fun x => x.priority = k) := by
  induction l with
  | nil => rfl
  | cons a rest ih =>
    rw [sortByPriorityDesc, filter_insertByPriorityDesc]
    by_cases ha : a.priority = k <;> simp [List.filter_cons, ha, ih]

theorem foldl_evaluate_policies (m : AggregatedMetrics) :
    ∀ (ps : List Policy) (acc : List Action),
      ps.foldl (fun acc pol => if pol.enabled then acc ++ evaluate_policy pol m else acc) acc =
        acc ++ (ps.filter (fun p => p.enabled)).flatMap (fun p => evaluate_policy p m) := by
  intro ps
  induction ps with
  | nil => intro acc; simp
  | cons p rest ih =>
    intro acc
    by_cases hp : p.enabled
    · simp [List.foldl_cons, hp, ih, List.filter_cons]
    · simp [List.foldl_cons, hp, ih, List.filter_cons]

theorem compute_aggregates_timestamp (m : AggregatedMetrics) :
    (compute_aggregates m).timestamp = m.timestamp := by
  unfold compute_aggregates
  split
  · rfl
  · dsimp only
    split
    · split <;> rfl
    · rfl

theorem compute_aggregates_cluster (m : AggregatedMetrics) :
    (compute_aggregates m).cluster = m.cluster := by
  unfold compute_aggregates
  split
  · rfl
  · dsimp only
    split
    · split <;> rfl
    · rfl

theorem buildSnapshot_timestamp (env : CollectEnv) (now : Int) (s : AggState) :
    (buildSnapshot env now s).1.timestamp = now := by
  unfold buildSnapshot
  rw [compute_aggregates_timestamp]

theorem buildSnapshot_state (env : CollectEnv) (now : Int) (s : AggState) :
    (buildSnapshot env now s).2 =
      { s with cache := some ((buildSnapshot env now s).1, now) } := by
  rfl

theorem collect_all_cache_hit (env : CollectEnv) (now : Int) (s : AggState)
    (m : AggregatedMetrics) (t : Int)
    (hc : s.cache = some (m, t)) (hv : now - t < s.cache_ttl) :
    collect_all env now false s = (m, s) := by
  have hvalid : cache_valid s now = true := by
    simp [cache_valid, hc, hv]
  simp [collect_all, hvalid, hc]

theorem collect_all_refresh (env : CollectEnv) (now : Int) (force : Bool) (s : AggState)
    (h : force = true ∨ cache_valid s now = false) :
    collect_all env now force s = buildSnapshot env now s := by
  rcases h with h | h
  · subst h; simp [collect_all]
  · simp [collect_all, h]

theorem collect_all_after_build (env : CollectEnv) (now : Int) (s : AggState) :
    collect_all env now false (buildSnapshot env now s).2 =
      ((buildSnapshot env now s).1, (buildSnapshot env now s).2) := by
  by_cases h : cache_valid (buildSnapshot env now s).2 now = true
  · exact collect_all_cache_hit env now _ _ now rfl
      (by simpa [cache_valid, buildSnapshot] using h)
  · rw [collect_all_refresh env now false _ (Or.inr (by simpa using h))]
    rfl

theorem get_summary_after_build (env : CollectEnv) (now : Int) (s : AggState) :
    get_summary env now (buildSnapshot env now s).2 =
      (summarize (buildSnapshot env now s).1, (buildSnapshot env now s).2) := by
  simp [get_summary, collect_all_after_build]

/-! ## Claims -/

/-- C1 (counterexample): the claim says a successful (200) response whose
body carries an explicit error field is retried like a transport failure.
On a healthy registered probe whose first attempt yields such a response
(`env1`, whose retry would succeed), `call_tool` instead returns a failure
result after exactly one attempt, leaving the router state unchanged, so
no retry happens. -/
theorem claim_C1_counterexample :
    (call_tool r1 0 "probe1" "t" env1).1.success = false ∧
    (call_tool r1 0 "probe1" "t" env1).1.error = some "tool failed" ∧
    (call_tool r1 0 "probe1" "t" env1).2.2.1 = 1 ∧
    (call_tool r1 0 "probe1" "t" env1).2.1 = r1 ∧
    env1 1 = .ok [] := by
  refine ⟨by decide, by decide, by decide, by decide, rfl⟩

/-- C1 (amended): an explicit error field inside a successful (200)
response makes `call_tool` return a failure result carrying the extracted
message immediately — exactly one attempt, no retry, no sleep, and no
health update (the router state is unchanged).  Only transport errors and
non-200 statuses are retryable. -/
theorem claim_C1 (s : RouterState) (now : Int) (target tool : String)
    (env : Nat → AttemptOutcome) (p : ProbeInfo) (msg : String)
    (hres : get_probe s target = some p) (hh : p.healthy = true)
    (henv : env 0 = .mcpError msg) (hpos : 0 < s.max_retries) :
    call_tool s now target tool env =
      ({ success := false, probe_id := p.probe_id, tool_name := tool
         error := some msg }, s, 1, []) := by
  obtain ⟨k, hk⟩ : ∃ k, s.max_retries = k + 1 := ⟨s.max_retries - 1, by omega⟩
  unfold call_tool
  rw [hres]
  simp [hh, hk, callLoop, henv]

/-- C1 (witness): the amended theorem applied to the concrete router
`r1` and environment `env1`. -/
theorem claim_C1_witness :
    call_tool r1 0 "probe1" "t" env1 =
      ({ success := false, probe_id := "probe1", tool_name := "t"
         error := some "tool failed" }, r1, 1, []) :=
  claim_C1 r1 0 "probe1" "t" env1 p1 "tool failed"
    (by decide) (by decide) (by decide) (by decide)

/-- C5 (counterexample): the claim says the router sleeps between every
pair of consecutive attempts, including after a non-success HTTP status.
On a healthy probe whose first attempt returns HTTP 500 and whose second
succeeds (`env5`), two attempts are made but no sleep at all occurs. -/
theorem claim_C5_counterexample :
    (call_tool r1 0 "probe1" "t" env5).2.2.1 = 2 ∧
    (call_tool r1 0 "probe1" "t" env5).1.success = true ∧
    (call_tool r1 0 "probe1" "t" env5).2.2.2 = [] := by
  refine ⟨by decide, by decide, by decide⟩

/-- C5 (amended): within one `call_tool`, a back-off sleep of
`(i+1) × 1` second happens exactly after those attempts `i` that failed
with a transport exception and are not the final possible attempt; an
attempt that failed with a non-success HTTP status is followed by no
sleep, and no sleep ever follows the final attempt. -/
theorem claim_C5 (s : RouterState) (now : Int) (target tool : String)
    (env : Nat → AttemptOutcome) (p : ProbeInfo)
    (hres : get_probe s target = some p) (hh : p.healthy = true) :
    (call_tool s now target tool env).2.2.2 =
      (List.range (call_tool s now target tool env).2.2.1).filterMap
        (fun i =>
          match env i with
          | .exn _ => if i + 1 < s.max_retries then some ((i : ℚ) + 1) else none
          | _ => none) := by
  unfold call_tool
  rw [hres]
  simp only [hh, if_true]
  rw [List.range_eq_range']
  exact callLoop_sleeps p.probe_id tool s.max_retries env s.max_retries 0

/-- C5 (witness): the amended theorem applied to the concrete router
`r1` and an environment whose first attempt raises a transport
exception. -/
theorem claim_C5_witness :
    (call_tool r1 0 "probe1" "t" (fun i => if i = 0 then .exn "boom" else .ok [])).2.2.2 =
      (List.range
        (call_tool r1 0 "probe1" "t"
          (fun i => if i = 0 then .exn "boom" else .ok [])).2.2.1).filterMap
        (fun i =>
          match (if i = 0 then AttemptOutcome.exn "boom" else .ok []) with
          | .exn _ => if i + 1 < r1.max_retries then some ((i : ℚ) + 1) else none
          | _ => none) :=
  claim_C5 r1 0 "probe1" "t" (fun i => if i = 0 then .exn "boom" else .ok []) p1
    (by decide) (by decide)

/-- C6 (counterexample): the claim says `list_probes` with
`healthy_only=true` keeps every agent whose health flag is true even when
it is stale.  Router `s6` holds exactly one probe, healthy but stale at
time 1000, and the healthy-only listing is empty. -/
theorem claim_C6_counterexample :
    pstale.healthy = true ∧
    pstale.is_stale 1000 = true ∧
    s6.probes = [pstale] ∧
    list_probes s6 1000 none true = [] := by
  refine ⟨rfl, by decide, rfl, by decide⟩

/-- C6 (amended): `list_probes` with `healthy_only=true` returns exactly
the registered probes that pass the category filter AND are healthy AND
are not stale (staleness window: the 300 s `is_stale` default); a healthy
but stale probe is excluded. -/
theorem claim_C6 (s : RouterState) (now : Int) (pt : Option ProbeType) :
    list_probes s now pt true =
      s.probes.filter (fun p =>
        (match pt with
         | some t => decide (p.probe_type = t)
         | none => true) && (p.healthy && !(p.is_stale now))) := by
  cases pt with
  | none => simp [list_probes]
  | some t =>
    show (s.probes.filter (fun p => p.probe_type = t)).filter
        (fun p => p.healthy && !(p.is_stale now)) = _
    rw [List.filter_filter]
    congr 1
    funext a
    cases h1 : decide (a.probe_type = t) <;> cases h2 : a.healthy <;>
      simp [h1, h2]

/-- C9: on a snapshot reporting 21 ready nodes, the enabled consolidate
policy with `min_nodes=10`, `target_nodes=5` plans exactly one
consolidate-workloads action targeting "cluster" whose parameters carry
`target_node_count=5`; with `min_nodes=30` it plans nothing, and the
comparison is strict — with `min_nodes=21` (equal to the ready-node
count) it also plans nothing. -/
theorem claim_C9 :
    evaluate_policies [pol9] m9 = [a9] ∧
    a9.action_type = .consolidate_workloads ∧
    a9.target = "cluster" ∧
    pget a9.parameters "target_node_count" .pnone = .pint 5 ∧
    evaluate_policies [pol9b] m9 = [] ∧
    evaluate_policies [pol9c] m9 = [] := by
  refine ⟨by decide, rfl, rfl, by decide, by decide, by decide⟩

/-- C4: when a healthy, registered target's invoke fails on every one of
the `max_retries` attempts (each attempt a retryable failure), the call
returns a failure result after exactly `max_retries` attempts, the
agent's health flag is false afterwards, and every subsequent invoke on
the same target — whatever tool, time or attempt environment — returns a
failure result immediately with zero network attempts. -/
theorem claim_C4 (s : RouterState) (now : Int) (target tool : String)
    (env : Nat → AttemptOutcome) (p : ProbeInfo)
    (hres : get_probe s target = some p) (hh : p.healthy = true)
    (hfail : ∀ i, i < s.max_retries → (env i).retriable = true) :
    (call_tool s now target tool env).1.success = false ∧
    (call_tool s now target tool env).2.2.1 = s.max_retries ∧
    ((get_probe (call_tool s now target tool env).2.1 target).map
      (fun q => q.healthy) = some false) ∧
    (∀ calls, ∀ x ∈ (call_tool_seq (call_tool s now target tool env).2.1 target calls).1,
      x.1.success = false ∧ x.2 = 0) := by
  have hloop := callLoop_all_fail p.probe_id tool s.max_retries env s.max_retries 0
    (by intro i h1 h2; exact hfail i (by omega))
  have hct : call_tool s now target tool env =
      ((callLoop p.probe_id tool s.max_retries env s.max_retries 0).result,
       update_health s p.probe_id false now,
       (callLoop p.probe_id tool s.max_retries env s.max_retries 0).consumed,
       (callLoop p.probe_id tool s.max_retries env s.max_retries 0).sleeps) := by
    unfold call_tool
    rw [hres]
    simp only [hh, if_true, hloop.2.1]
  have hunhealthy : (get_probe (call_tool s now target tool env).2.1 target).map
      (fun q => q.healthy) = some false := by
    rw [hct]
    dsimp only
    rw [get_probe_update_health, hres]
    simp
  refine ⟨?_, ?_, hunhealthy, ?_⟩
  · rw [hct, hloop.1]
  · rw [hct]
    exact hloop.2.2
  · intro calls x hx
    rcases hq : get_probe (call_tool s now target tool env).2.1 target with _ | q
    · rw [hq] at hunhealthy; simp at hunhealthy
    · have hqf : q.healthy = false := by
        rw [hq] at hunhealthy
        simpa using hunhealthy
      exact (call_tool_seq_of_unhealthy target calls _ q hq hqf).1 x hx

/-- C4 (witness): the theorem applied to the concrete router `r1` with
every attempt returning HTTP 500, followed by a concrete pair of
subsequent invokes that both fail fast with zero attempts. -/
theorem claim_C4_witness :
    (call_tool r1 0 "probe1" "t" env4).1.success = false ∧
    (call_tool r1 0 "probe1" "t" env4).2.2.1 = 3 ∧
    ((get_probe (call_tool r1 0 "probe1" "t" env4).2.1 "probe1").map
      (fun q => q.healthy) = some false) ∧
    ((call_tool_seq (call_tool r1 0 "probe1" "t" env4).2.1 "probe1"
        [(5, "t2", env1), (9, "t3", env5)]).1.map
      (fun x => (x.1.success, x.2)) = [(false, 0), (false, 0)]) := by
  have h := claim_C4 r1 0 "probe1" "t" env4 p1 (by decide) (by decide) (fun i _ => rfl)
  exact ⟨h.1, h.2.1, h.2.2.1, by decide⟩

/-- C10: the action list `evaluate_policies` returns is exactly the
concatenation of the per-policy action lists (stored policy order,
disabled policies skipped) re-sorted stably in descending priority: the
result is that sorted concatenation, it is pairwise sorted descending by
priority, and for every priority value the sub-list of actions at that
priority equals the corresponding sub-list of the unsorted concatenation
(i.e. ties keep their evaluation order). -/
theorem claim_C10 (policies : List Policy) (m : AggregatedMetrics) :
    evaluate_policies policies m =
      sortByPriorityDesc
        ((policies.filter (fun p => p.enabled)).flatMap (fun p => evaluate_policy p m)) ∧
    (evaluate_policies policies m).Pairwise (fun x y => y.priority ≤ x.priority) ∧
    ∀ k : Int,
      (evaluate_policies policies m).filter (fun a => a.priority = k) =
        ((policies.filter (fun p => p.enabled)).flatMap (fun p => evaluate_policy p m)).filter
          (fun a => a.priority = k) := by
  have heval : evaluate_policies policies m =
      sortByPriorityDesc
        ((policies.filter (fun p => p.enabled)).flatMap (fun p => evaluate_policy p m)) := by
    unfold evaluate_policies
    rw [foldl_evaluate_policies m policies []]
    rfl
  refine ⟨heval, ?_, ?_⟩
  · rw [heval]
    exact sorted_sortByPriorityDesc _
  · intro k
    rw [heval, filter_sortByPriorityDesc]

/-- C7: in every completed cycle the executed-results list is exactly the
planned actions executed in order (same length, no truncation), and the
cycle's success flag is true iff every executed action succeeded —
vacuously true for an empty plan, and false as soon as any one action
fails, without stopping the rest. -/
theorem claim_C7 (rs : RouterState) (aggS : AggState) (collectEnv : CollectEnv)
    (callEnv : CallEnv) (policies : List Policy) (cid : String)
    (t0 t_after : Int) (dry : Bool) :
    (run_optimization_cycle rs aggS collectEnv callEnv policies cid t0 t_after dry).1.actions_executed =
      (run_optimization_cycle rs aggS collectEnv callEnv policies cid t0 t_after dry).1.actions_planned.map
        (execute_action rs callEnv) ∧
    (run_optimization_cycle rs aggS collectEnv callEnv policies cid t0 t_after dry).1.actions_executed.length =
      (run_optimization_cycle rs aggS collectEnv callEnv policies cid t0 t_after dry).1.actions_planned.length ∧
    ((run_optimization_cycle rs aggS collectEnv callEnv policies cid t0 t_after dry).1.success = true ↔
      ∀ r ∈ (run_optimization_cycle rs aggS collectEnv callEnv policies cid t0 t_after dry).1.actions_executed,
        r.success = true) := by
  refine ⟨rfl, ?_, ?_⟩
  · rw [show (run_optimization_cycle rs aggS collectEnv callEnv policies cid t0 t_after dry).1.actions_executed =
        (run_optimization_cycle rs aggS collectEnv callEnv policies cid t0 t_after dry).1.actions_planned.map
          (execute_action rs callEnv) from rfl]
    exact List.length_map _ _
  · exact List.all_eq_true

/-- C2: the cycle-level dry-run override changes only the action's
`dry_run` field (parameters, type and target untouched); `execute_action`
dispatches identically with or without the override (only the recorded
action differs), so a consolidate-workloads action still sends its
parameter dict — which carries the originating policy's original
`dry_run` parameter value — to the orchestrator's consolidate tool, and a
set-governor action is sent with no dry-run key in its parameters at
all. -/
theorem claim_C2 (pol : Policy) (m : AggregatedMetrics) (rs : RouterState)
    (env : CallEnv) (a : Action) (ha : a ∈ evaluate_policy pol m) :
    (overrideDryRun a).parameters = a.parameters ∧
    (overrideDryRun a).action_type = a.action_type ∧
    (overrideDryRun a).target = a.target ∧
    execute_action rs env (overrideDryRun a) =
      { execute_action rs env a with action := overrideDryRun a } ∧
    (a.action_type = ActionType.consolidate_workloads →
      a.parameters.lookup "dry_run" = some (pget pol.parameters "dry_run" (.pbool true)) ∧
      ∀ p, findK8s rs = some p →
        (execute_action rs env a).result =
          outcomeToDict (env ⟨p.probe_id, "consolidate_workloads", a.parameters⟩)) ∧
    (a.action_type = ActionType.set_governor →
      phasKey a.parameters "dry_run" = false ∧
      (execute_action rs env a).result =
        outcomeToDict (env ⟨a.target, "set_cpu_governor", a.parameters⟩)) := by
  obtain ⟨pname, ptype, pen, pprio, pconds, pparams⟩ := pol
  refine ⟨rfl, rfl, rfl, rfl, ?_, ?_⟩
  · intro hat
    cases ptype with
    | consolidate =>
      simp only [evaluate_policy] at ha
      cases hc : m.cluster with
      | none => rw [hc] at ha; simp at ha
      | some cl =>
        rw [hc] at ha
        simp only [List.mem_ite_nil_right, List.mem_singleton, gt_iff_lt] at ha
        obtain ⟨hcond, rfl⟩ := ha
        refine ⟨rfl, ?_⟩
        intro p hfind
        simp only [execute_action, execute_consolidate, hfind]
    | scale_down => simp [evaluate_policy] at ha
    | power_save =>
      simp only [evaluate_policy] at ha
      rcases List.mem_map.mp ha with ⟨n, _, rfl⟩
      simp at hat
    | performance =>
      simp only [evaluate_policy] at ha
      rcases List.mem_map.mp ha with ⟨n, _, rfl⟩
      simp at hat
  · intro hat
    cases ptype with
    | consolidate =>
      simp only [evaluate_policy] at ha
      cases hc : m.cluster with
      | none => rw [hc] at ha; simp at ha
      | some cl =>
        rw [hc] at ha
        simp only [List.mem_ite_nil_right, List.mem_singleton, gt_iff_lt] at ha
        obtain ⟨hcond, rfl⟩ := ha
        simp at hat
    | scale_down => simp [evaluate_policy] at ha
    | power_save =>
      simp only [evaluate_policy] at ha
      rcases List.mem_map.mp ha with ⟨n, _, rfl⟩
      exact ⟨rfl, rfl⟩
    | performance =>
      simp only [evaluate_policy] at ha
      rcases List.mem_map.mp ha with ⟨n, _, rfl⟩
      exact ⟨rfl, rfl⟩

/-- C2 (witness): the theorem applied to the concrete consolidate policy
`pol9` on snapshot `m9` and its planned action `a9`: the override keeps
the parameters, execution is unchanged, and the parameter dict sent to
the orchestrator still carries the policy's original dry-run value
(`true` by default here). -/
theorem claim_C2_witness :
    (overrideDryRun a9).parameters = a9.parameters ∧
    a9.parameters.lookup "dry_run" = some (pget pol9.parameters "dry_run" (.pbool true)) ∧
    execute_action r1 dummyCallEnv (overrideDryRun a9) =
      { execute_action r1 dummyCallEnv a9 with action := overrideDryRun a9 } := by
  have h := claim_C2 pol9 m9 r1 dummyCallEnv a9 (by decide)
  exact ⟨h.1, (h.2.2.2.2.1 rfl).1, h.2.2.2.1⟩

/-- C3 (counterexample): the claim says `metrics_after` always comes from
a forced refresh, strictly newer than the pre-cycle snapshot.  In a cycle
started at time 0 whose post-action summary happens at time 2 (inside the
30 s TTL), `metrics_after` equals `metrics_before` — both summarise the
cached pre-cycle snapshot with timestamp 0 even though the summary was
taken at time 2. -/
theorem claim_C3_counterexample :
    c3cyc.metrics_after = c3cyc.metrics_before ∧
    c3cyc.metrics_after.map (fun s => s.timestamp) = some 0 ∧
    c3cyc.end_time = some 2 :=
  ⟨rfl, rfl, rfl⟩

/-- C3 (amended): after the fixed pause, `metrics_after` comes from a
*non-forced* `get_summary`: while the pre-cycle snapshot is still within
the aggregator's TTL it equals `metrics_before` (the cached pre-cycle
snapshot is reused); only once the TTL has expired by summary time is a
fresh snapshot (timestamped at the summary time) collected. -/
theorem claim_C3 (rs : RouterState) (aggS : AggState) (collectEnv : CollectEnv)
    (callEnv : CallEnv) (policies : List Policy) (cid : String)
    (t0 t_after : Int) (dry : Bool) :
    (t_after - t0 < aggS.cache_ttl →
      (run_optimization_cycle rs aggS collectEnv callEnv policies cid t0 t_after dry).1.metrics_after =
      (run_optimization_cycle rs aggS collectEnv callEnv policies cid t0 t_after dry).1.metrics_before) ∧
    (¬ t_after - t0 < aggS.cache_ttl →
      (run_optimization_cycle rs aggS collectEnv callEnv policies cid t0 t_after dry).1.metrics_after.map
        (fun s => s.timestamp) = some t_after) := by
  have hforced : collect_all collectEnv t0 true aggS = buildSnapshot collectEnv t0 aggS :=
    collect_all_refresh collectEnv t0 true aggS (Or.inl rfl)
  constructor
  · intro h
    have hhit : collect_all collectEnv t_after false (buildSnapshot collectEnv t0 aggS).2 =
        ((buildSnapshot collectEnv t0 aggS).1, (buildSnapshot collectEnv t0 aggS).2) :=
      collect_all_cache_hit collectEnv t_after _ _ t0 rfl h
    unfold run_optimization_cycle
    rw [hforced]
    simp only [get_summary, collect_all_after_build, hhit]
  · intro h
    have hmiss : collect_all collectEnv t_after false (buildSnapshot collectEnv t0 aggS).2 =
        buildSnapshot collectEnv t_after (buildSnapshot collectEnv t0 aggS).2 := by
      refine collect_all_refresh collectEnv t_after false _ (Or.inr ?_)
      simp [cache_valid, buildSnapshot]
      omega
    unfold run_optimization_cycle
    rw [hforced]
    simp only [get_summary, collect_all_after_build, hmiss]
    simp [summarize, buildSnapshot_timestamp]

/-- C3 (witness): the amended theorem applied twice concretely — a
post-pause summary at time 2 (within the TTL) reuses the pre-cycle
summary, while one at time 50 (past the 30 s TTL) is freshly
timestamped. -/
theorem claim_C3_witness :
    (run_optimization_cycle {} {} emptyCollectEnv dummyCallEnv [] "cyc" 0 2 true).1.metrics_after =
      (run_optimization_cycle {} {} emptyCollectEnv dummyCallEnv [] "cyc" 0 2 true).1.metrics_before ∧
    (run_optimization_cycle {} {} emptyCollectEnv dummyCallEnv [] "cyc" 0 50 true).1.metrics_after.map
      (fun s => s.timestamp) = some 50 := by
  have h2 := claim_C3 {} {} emptyCollectEnv dummyCallEnv [] "cyc" 0 2 true
  have h50 := claim_C3 {} {} emptyCollectEnv dummyCallEnv [] "cyc" 0 50 true
  exact ⟨h2.1 (by decide), h50.2 (by decide)⟩

/-- C8: starting from an empty cache, a first non-forced `collect_all` at
`t1` returns a snapshot timestamped `t1`; a second non-forced call within
the TTL returns the identical cached snapshot and leaves the state
untouched; a call after the TTL has expired, or any forced call, builds a
snapshot timestamped at the (strictly later) call time and replaces the
single cache slot with it wholesale. -/
theorem claim_C8 (env : CollectEnv) (s : AggState) (t1 t2 : Int)
    (h0 : s.cache = none) (h12 : t1 < t2) :
    (collect_all env t1 false s).1.timestamp = t1 ∧
    (t2 - t1 < s.cache_ttl →
      collect_all env t2 false (collect_all env t1 false s).2 =
        ((collect_all env t1 false s).1, (collect_all env t1 false s).2)) ∧
    (¬ t2 - t1 < s.cache_ttl →
      (collect_all env t2 false (collect_all env t1 false s).2).1.timestamp = t2 ∧
      (collect_all env t1 false s).1.timestamp <
        (collect_all env t2 false (collect_all env t1 false s).2).1.timestamp ∧
      (collect_all env t2 false (collect_all env t1 false s).2).2.cache =
        some ((collect_all env t2 false (collect_all env t1 false s).2).1, t2)) ∧
    ((collect_all env t2 true (collect_all env t1 false s).2).1.timestamp = t2 ∧
      (collect_all env t1 false s).1.timestamp <
        (collect_all env t2 true (collect_all env t1 false s).2).1.timestamp ∧
      (collect_all env t2 true (collect_all env t1 false s).2).2.cache =
        some ((collect_all env t2 true (collect_all env t1 false s).2).1, t2)) := by
  have hfirst : collect_all env t1 false s = buildSnapshot env t1 s :=
    collect_all_refresh env t1 false s (Or.inr (by simp [cache_valid, h0]))
  have hts : (collect_all env t1 false s).1.timestamp = t1 := by
    rw [hfirst]; exact buildSnapshot_timestamp env t1 s
  refine ⟨hts, ?_, ?_, ?_⟩
  · intro h
    rw [hfirst]
    exact collect_all_cache_hit env t2 _ _ t1 rfl h
  · intro h
    have hmiss : collect_all env t2 false (buildSnapshot env t1 s).2 =
        buildSnapshot env t2 (buildSnapshot env t1 s).2 := by
      refine collect_all_refresh env t2 false _ (Or.inr ?_)
      simp [cache_valid, buildSnapshot]
      omega
    rw [hfirst, hmiss]
    refine ⟨buildSnapshot_timestamp env t2 _, ?_, rfl⟩
    rw [buildSnapshot_timestamp, buildSnapshot_timestamp]
    exact h12
  · have hforce : collect_all env t2 true (buildSnapshot env t1 s).2 =
        buildSnapshot env t2 (buildSnapshot env t1 s).2 :=
      collect_all_refresh env t2 true _ (Or.inl rfl)
    rw [hfirst, hforce]
    refine ⟨buildSnapshot_timestamp env t2 _, ?_, rfl⟩
    rw [buildSnapshot_timestamp, buildSnapshot_timestamp]
    exact h12

/-- C8 (witness): the theorem applied concretely — first collection at
time 0, a cache hit at time 10, a rebuild at time 50, and a forced
rebuild at time 10. -/
theorem claim_C8_witness :
    (collect_all emptyCollectEnv 0 false {}).1.timestamp = 0 ∧
    collect_all emptyCollectEnv 10 false (collect_all emptyCollectEnv 0 false {}).2 =
      ((collect_all emptyCollectEnv 0 false {}).1, (collect_all emptyCollectEnv 0 false {}).2) ∧
    (collect_all emptyCollectEnv 50 false (collect_all emptyCollectEnv 0 false {}).2).1.timestamp = 50 ∧
    (collect_all emptyCollectEnv 10 true (collect_all emptyCollectEnv 0 false {}).2).1.timestamp = 10 := by
  have h10 := claim_C8 emptyCollectEnv {} 0 10 rfl (by decide)
  have h50 := claim_C8 emptyCollectEnv {} 0 50 rfl (by decide)
  exact ⟨h10.1, h10.2.1 (by decide), (h50.2.2.1 (by decide)).1, h10.2.2.2.1⟩

end VSF
